import Mathlib

/-!
Verification of the `tauri-mw-store` core: a shallow embedding of the
state-synchronization layer (`src/core/StoreManager.ts`) and the change
notification registry (`src/core/ListenerRegistry.ts`), together with
theorems settling the spec's claims about them.

Conventions of the embedding:
* JS string-keyed records become functions `String → Option α`
  (`none` = absent/`undefined`).
* JS `Set<string>` built from an array keeps insertion order and drops
  later duplicates; `jsSetOf` mirrors that.
* Promise rejection becomes `Except ε`; the durable-store adapter's
  responses are supplied by an `AdapterBehavior` oracle, and every
  adapter operation the manager performs is recorded in a `StoreOp`
  trace so that "no storage I/O" claims are checkable.
* Listener callbacks are identified by an abstract identity type `ι`
  (JS function identity); a callback that may throw is modelled by a
  result function `ι → Except ε Unit`.
-/

namespace MWStore

/-! ## Change notification registry — `src/core/ListenerRegistry.ts`

`listeners: Map<string, Set<Listener>>` becomes a function from key to the
insertion-ordered list of registered callback identities. -/

/-- The registry state: for each key, the registered listeners in
registration order (JS `Set` iterates in insertion order). -/
def Registry (ι : Type) : Type := String → List ι

/-- The empty registry (a key with no entry notifies nobody). -/
def Registry.empty (ι : Type) : Registry ι := fun _ => []

/-- `addListener(key, callback)`: create the key's set if missing and add
the callback; JS `Set.add` is a no-op when the callback is already
present. -/
def addListener {ι : Type} [DecidableEq ι] (r : Registry ι) (key : String)
    (c : ι) : Registry ι :=
  fun k => if k = key then (if c ∈ r key then r key else r key ++ [c]) else r k

/-- `removeListener(key, callback)`: delete the callback from the key's
set (no-op when absent). -/
def removeListener {ι : Type} [DecidableEq ι] (r : Registry ι) (key : String)
    (c : ι) : Registry ι :=
  fun k => if k = key then (r key).filter (fun x => x ≠ c) else r k

/-- `notify(key, value)` invokes every listener registered for `key`, in
registration order; this returns the invocation list. -/
def notifyTargets {ι : Type} (r : Registry ι) (key : String) : List ι := r key

/-- `notify`'s execution when listeners may throw: JS
`set.forEach((l) => l(value))` runs the callbacks in order and the first
exception aborts the iteration and propagates. Returns the callbacks that
were actually invoked and the propagated exception, if any. -/
def notifyRun {ι ε : Type} (run : ι → Except ε Unit) :
    List ι → List ι × Option ε
  | [] => ([], none)
  | c :: rest =>
    match run c with
    | .ok _ =>
      let (inv, e) := notifyRun run rest
      (c :: inv, e)
    | .error e => ([c], some e)

/-! ## JS `Set` construction

`new Set([...a, ...b])` keeps the first occurrence of each element, in
insertion order. -/

/-- Append an element to a JS `Set` (no-op when already present). -/
def jsSetAdd {β : Type} [DecidableEq β] (l : List β) (x : β) : List β :=
  if x ∈ l then l else l ++ [x]

/-- `new Set(list)`: insertion-ordered deduplication keeping first
occurrences. -/
def jsSetOf {β : Type} [DecidableEq β] (l : List β) : List β :=
  l.foldl jsSetAdd []

/-! ## Store manager — `src/core/StoreManager.ts` -/

/-- `StoreOptions` from `StoreManager.ts`: all three fields optional. -/
structure StoreOptions where
  immediateKeys : Option (List String) := none
  onCloseKeys : Option (List String) := none
  autoCleanup : Option Bool := none

/-- The `StoreManager` instance state (its private fields). -/
structure StoreManager (α : Type) where
  state : String → Option α
  initialState : String → Option α
  immediateKeys : List String
  onCloseKeys : List String
  windowLabel : String
  autoCleanup : Bool

/-- The constructor: copies `initialState` into both `state` and
`initialState`, takes `autoCleanup` as `options?.autoCleanup ?? true`,
and builds the two key sets from the option lists (empty when `options`
is absent). -/
def StoreManager.construct {α : Type} (label : String)
    (initialState : String → Option α) (options : Option StoreOptions) :
    StoreManager α :=
  { windowLabel := label
    initialState := initialState
    state := initialState
    autoCleanup := (options.bind StoreOptions.autoCleanup).getD true
    immediateKeys :=
      match options with
      | some o => jsSetOf (o.immediateKeys.getD [])
      | none => []
    onCloseKeys :=
      match options with
      | some o => jsSetOf (o.onCloseKeys.getD [])
      | none => [] }

/-- A primitive operation on the durable store, as performed through the
persistence adapter (`load`/`save` calls made by `StoreManager`, plus the
key listing and deletions done by orphan cleanup). -/
inductive StoreOp (α : Type) where
  | listKeys
  | load (keys : List String)
  | save (key : String) (value : Option α)
  | delete (key : String)
  deriving DecidableEq

/-- Oracle fixing the durable-store adapter's responses: each field is the
result (value or rejection) the adapter would return for the
corresponding operation. -/
structure AdapterBehavior (α ε : Type) where
  /-- Result of listing all keys currently in the durable store. -/
  allKeys : Except ε (List String)
  /-- Result of deleting one key. -/
  deleteResult : String → Except ε Unit
  /-- Result of `persistentAdapter.load(keys)`: the record of persisted
  values found for the requested keys (keys absent from the record keep
  their in-memory value on merge). -/
  loadResult : List String → Except ε (List (String × α))
  /-- Result of `persistentAdapter.save(key, value)`. -/
  saveResult : String → Option α → Except ε Unit

/-- Delete each key in order; the first rejection aborts and propagates
(later deletions are not attempted). Returns the outcome and the trace of
attempted deletions. -/
def deleteAll {α ε : Type} (beh : AdapterBehavior α ε) :
    List String → Except ε Unit × List (StoreOp α)
  | [] => (.ok (), [])
  | k :: rest =>
    match beh.deleteResult k with
    | .error e => (.error e, [.delete k])
    | .ok _ =>
      let (r, ops) := deleteAll beh rest
      (r, .delete k :: ops)

/-- Modelled from the spec: `persistentAdapter.cleanupOrphanedKeys`
(file `PersistentAdaper.ts`, not present among the sources) — "ask the
Durable Store Adapter for all keys currently persisted on disk, compute
the set difference against the currently-declared persisted keys, and
delete every orphan", returning the orphaned keys. -/
def cleanupOrphanedKeys {α ε : Type} (beh : AdapterBehavior α ε)
    (currentKeys : List String) : Except ε (List String) × List (StoreOp α) :=
  match beh.allKeys with
  | .error e => (.error e, [.listKeys])
  | .ok stored =>
    let orphans := stored.filter (fun k => k ∉ currentKeys)
    match deleteAll beh orphans with
    | (.error e, ops) => (.error e, StoreOp.listKeys :: ops)
    | (.ok _, ops) => (.ok orphans, StoreOp.listKeys :: ops)

/-- What a run of `hydrate()` produces: its outcome (the updated manager,
or the propagated rejection), the trace of durable-store operations, the
listener notifications it issued, and whether the window-close listener
was registered. -/
structure HydrateResult (α ε : Type) where
  result : Except ε (StoreManager α)
  ops : List (StoreOp α)
  notifications : List (String × Option α)
  closeListenerRegistered : Bool

/-- `loadPersistedState` merge: `{ ...this.state, ...persistedState }` —
keys present in the loaded record override the in-memory value. -/
def mergeLoaded {α : Type} (state : String → Option α)
    (persisted : List (String × α)) : String → Option α :=
  fun k =>
    match persisted.lookup k with
    | some v => some v
    | none => state k

/-- `hydrate()`: builds `allPersistedKeys = new Set([...immediateKeys,
...onCloseKeys])`; when `autoCleanup`, runs orphan cleanup with failures
caught (logged, never propagated); when the key set is non-empty, awaits
`loadPersistedState` (whose rejection propagates — it is not wrapped) and
notifies every persisted key with its post-merge value; finally registers
the close listener when `onCloseKeys` is non-empty. -/
def StoreManager.hydrate {α ε : Type} (m : StoreManager α)
    (beh : AdapterBehavior α ε) : HydrateResult α ε :=
  let allPersistedKeys := jsSetOf (m.immediateKeys ++ m.onCloseKeys)
  let cleanupOps :=
    if m.autoCleanup then (cleanupOrphanedKeys beh allPersistedKeys).2 else []
  if allPersistedKeys.isEmpty then
    { result := .ok m
      ops := cleanupOps
      notifications := []
      closeListenerRegistered := !m.onCloseKeys.isEmpty }
  else
    match beh.loadResult allPersistedKeys with
    | .error e =>
      { result := .error e
        ops := cleanupOps ++ [.load allPersistedKeys]
        notifications := []
        closeListenerRegistered := false }
    | .ok persisted =>
      let newState := mergeLoaded m.state persisted
      { result := .ok { m with state := newState }
        ops := cleanupOps ++ [.load allPersistedKeys]
        notifications := allPersistedKeys.map (fun k => (k, newState k))
        closeListenerRegistered := !m.onCloseKeys.isEmpty }

/-- `get(key)`: the current in-memory value. -/
def StoreManager.get {α : Type} (m : StoreManager α) (key : String) :
    Option α := m.state key

/-- `getDefaultValue(key)`: the construction-time default. -/
def StoreManager.getDefaultValue {α : Type} (m : StoreManager α)
    (key : String) : Option α := m.initialState key

/-- The `emitToWindows` argument / `targetWindows` envelope field:
`string[] | "all"`. -/
inductive TargetWindows where
  | all
  | list (ws : List String)
  deriving DecidableEq

/-- The cross-window update envelope
`{key, value, sourceWindow, targetWindows}`. -/
structure UpdateEnvelope (α : Type) where
  key : String
  value : α
  sourceWindow : String
  targetWindows : TargetWindows
  deriving DecidableEq

/-- Overwrite `state[key] = value`. -/
def StoreManager.withState {α : Type} (m : StoreManager α) (key : String)
    (value : α) : StoreManager α :=
  { m with state := fun k => if k = key then some value else m.state k }

/-- What a run of `set(key, value, emitToWindows)` produces: the updated
manager, the local notifications, the broadcast envelopes, the trace of
durable-store operations, the durable store contents afterwards, and the
promise outcome. -/
structure SetResult (α ε : Type) where
  mgr : StoreManager α
  notifications : List (String × α)
  emitted : List (UpdateEnvelope α)
  ops : List (StoreOp α)
  disk : String → Option α
  result : Except ε Unit

/-- `set(key, value, emitToWindows = "all")`: overwrite the state, notify
local listeners, broadcast the update envelope, then — only for an
`immediateKeys` key — await `persistentAdapter.save`; a rejected save
rejects `set` (after the state change and notification, with the durable
store left as it was). -/
def StoreManager.set {α ε : Type} (m : StoreManager α) (key : String)
    (value : α) (emitToWindows : TargetWindows)
    (beh : AdapterBehavior α ε) (disk : String → Option α) : SetResult α ε :=
  let m' := m.withState key value
  let env : UpdateEnvelope α :=
    { key := key, value := value, sourceWindow := m.windowLabel
      targetWindows := emitToWindows }
  if key ∈ m.immediateKeys then
    match beh.saveResult key (some value) with
    | .ok _ =>
      { mgr := m', notifications := [(key, value)], emitted := [env]
        ops := [.save key (some value)]
        disk := fun k => if k = key then some value else disk k
        result := .ok () }
    | .error e =>
      { mgr := m', notifications := [(key, value)], emitted := [env]
        ops := [.save key (some value)]
        disk := disk
        result := .error e }
  else
    { mgr := m', notifications := [(key, value)], emitted := [env]
      ops := [], disk := disk, result := .ok () }

/-- `saveOnCloseKeys()`: the close-time flush saves every `onCloseKeys`
key's current value (the saves are issued together and awaited in
parallel via `Promise.all`; the list records them in key-set order). -/
def StoreManager.saveOnCloseKeys {α : Type} (m : StoreManager α) :
    List (StoreOp α) :=
  m.onCloseKeys.map (fun k => .save k (m.state k))

/-- The accepted-update tail of the `store-update` handler: overwrite
`state[key]`, notify local listeners, and save the key when this window
classifies it as immediate. -/
def StoreManager.applyIncoming {α : Type} (m : StoreManager α)
    (env : UpdateEnvelope α) :
    StoreManager α × List (String × α) × List (StoreOp α) :=
  (m.withState env.key env.value, [(env.key, env.value)],
    if env.key ∈ m.immediateKeys then [.save env.key (some env.value)]
    else [])

/-- The `store-update` handler registered by `listenToIncomingUpdates`:
drop the envelope when `sourceWindow` is this window (echo) or when
`targetWindows` is a list not containing this window's label; otherwise
apply it. Returns the updated manager, the notifications, and the
durable-store operations. -/
def StoreManager.handleIncomingUpdate {α : Type} (m : StoreManager α)
    (env : UpdateEnvelope α) :
    StoreManager α × List (String × α) × List (StoreOp α) :=
  if env.sourceWindow = m.windowLabel then (m, [], [])
  else
    match env.targetWindows with
    | .list ws =>
      if m.windowLabel ∈ ws then m.applyIncoming env else (m, [], [])
    | .all => m.applyIncoming env

/-- The `store-sync-response` envelope
`{key, value, sourceWindow, targetWindow}`. -/
structure SyncResponse (α : Type) where
  key : String
  value : α
  sourceWindow : String
  targetWindow : String
  deriving DecidableEq

/-- The `store-sync-request` envelope `{key, requestWindow}`. -/
structure SyncRequest where
  key : String
  requestWindow : String
  deriving DecidableEq

/-- The response filter inside `requestSync`'s listener:
`responseKey === key && targetWindow === this.windowLabel`. -/
def matchesSync {α : Type} (key label : String) (r : SyncResponse α) :
    Bool :=
  r.key == key && r.targetWindow == label

/-- What a run of `requestSync(key)` produces: the manager afterwards, the
notifications, the emitted sync request, the resolved value, and whether
the timeout was cancelled / the response listener unregistered. -/
structure SyncResult (α : Type) where
  mgr : StoreManager α
  notifications : List (String × α)
  request : SyncRequest
  resolved : Option α
  canceledTimeout : Bool
  unregisteredListener : Bool

/-- `requestSync(key)`: emit `{key, requestWindow: thisWindow}` and race
the matching responses against the 1-second timeout. `delivered` lists
the `store-sync-response` envelopes arriving before the timeout, in
arrival order; the listener accepts the first one with the requested key
addressed to this window. On a match: cancel the timeout, unregister the
listener, overwrite `state[key]`, notify, resolve with the value. On
timeout: unregister the listener and resolve with the current state. -/
def StoreManager.requestSync {α : Type} (m : StoreManager α) (key : String)
    (delivered : List (SyncResponse α)) : SyncResult α :=
  let req : SyncRequest := { key := key, requestWindow := m.windowLabel }
  match delivered.find? (matchesSync key m.windowLabel) with
  | some r =>
    { mgr := m.withState key r.value
      notifications := [(key, r.value)]
      request := req
      resolved := some r.value
      canceledTimeout := true
      unregisteredListener := true }
  | none =>
    { mgr := m
      notifications := []
      request := req
      resolved := m.state key
      canceledTimeout := false
      unregisteredListener := true }

/-- The `store-sync-request` handler registered by
`listenToIncomingUpdates`: ignore this window's own requests, otherwise
respond with the current value addressed to the requester. -/
def StoreManager.handleSyncRequest {α : Type} (m : StoreManager α)
    (req : SyncRequest) : List (SyncResponse (Option α)) :=
  if req.requestWindow = m.windowLabel then []
  else
    [{ key := req.key, value := m.state req.key
       sourceWindow := m.windowLabel, targetWindow := req.requestWindow }]

/-- What a run of `defineStore(initialState, options)` produces: the
module-level singleton afterwards, the hydration's durable-store trace
and notifications, and the promise outcome. -/
structure DefineResult (α ε : Type) where
  global : Option (StoreManager α)
  ops : List (StoreOp α)
  notifications : List (String × Option α)
  result : Except ε Unit

/-- `defineStore(initialState, options)`: when the module-level
`windowStoreManager` is already set, return at once (the arguments are
ignored, nothing is constructed, no I/O happens); otherwise construct the
manager, store it, and await `hydrate()` (whose rejection propagates,
with the singleton left assigned). -/
def defineStore {α ε : Type} (g : Option (StoreManager α)) (label : String)
    (initialState : String → Option α) (options : Option StoreOptions)
    (beh : AdapterBehavior α ε) : DefineResult α ε :=
  match g with
  | some _ => { global := g, ops := [], notifications := [], result := .ok () }
  | none =>
    let m := StoreManager.construct label initialState options
    let h := m.hydrate beh
    match h.result with
    | .error e =>
      { global := some m, ops := h.ops, notifications := h.notifications
        result := .error e }
    | .ok m' =>
      { global := some m', ops := h.ops, notifications := h.notifications
        result := .ok () }

/-! ## Concrete adapter behaviors used as witnesses -/

/-- An adapter that succeeds everywhere over an empty durable store. -/
def okBehavior : AdapterBehavior Nat Nat :=
  { allKeys := .ok []
    deleteResult := fun _ => .ok ()
    loadResult := fun _ => .ok []
    saveResult := fun _ _ => .ok () }

/-- An adapter whose `load` rejects (with error code 7). -/
def failLoadBehavior : AdapterBehavior Nat Nat :=
  { allKeys := .ok []
    deleteResult := fun _ => .ok ()
    loadResult := fun _ => .error 7
    saveResult := fun _ _ => .ok () }

/-- An adapter whose key listing rejects (error code 3), so orphan
cleanup fails, while `load` succeeds with `{a: 5}`. -/
def failCleanupBehavior : AdapterBehavior Nat Nat :=
  { allKeys := .error 3
    deleteResult := fun _ => .ok ()
    loadResult := fun _ => .ok [("a", 5)]
    saveResult := fun _ _ => .ok () }

/-- An adapter whose `save` rejects (error code 9). -/
def failSaveBehavior : AdapterBehavior Nat Nat :=
  { allKeys := .ok []
    deleteResult := fun _ => .ok ()
    loadResult := fun _ => .ok []
    saveResult := fun _ _ => .error 9 }

/-- A concrete manager: window `main`, every key defaulting to `0`,
`immediateKeys = {a}`, `onCloseKeys = {b}`. -/
def sampleManager : StoreManager Nat :=
  StoreManager.construct "main" (fun _ => some 0)
    (some { immediateKeys := some ["a"], onCloseKeys := some ["b"] })

/-! ## Claims -/

/-- C1 counterexample: with both key sets empty and the default options
(`autoCleanup` defaults to `true`), `hydrate()` still calls the adapter's
orphan cleanup, which lists the durable store's keys — so hydration does
NOT complete without any durable-store access. -/
theorem C1_counterexample :
    StoreOp.listKeys ∈
      ((StoreManager.construct "main" (fun _ => none)
        (none : Option StoreOptions)).hydrate okBehavior).ops := by
  decide

/-- C1 (amended): if no keys are configured for persistence AND automatic
orphan cleanup is disabled, `hydrate()` completes without any
durable-store operation and without notifications, for every initial
state, window label and adapter behavior. -/
theorem C1_noop_hydration {α ε : Type} (label : String)
    (init : String → Option α) (opts : StoreOptions)
    (beh : AdapterBehavior α ε)
    (h1 : opts.immediateKeys.getD [] = [])
    (h2 : opts.onCloseKeys.getD [] = [])
    (h3 : opts.autoCleanup = some false) :
    ((StoreManager.construct label init (some opts)).hydrate beh).ops = []
    ∧ ((StoreManager.construct label init (some opts)).hydrate beh).result
        = .ok (StoreManager.construct label init (some opts))
    ∧ ((StoreManager.construct label init
        (some opts)).hydrate beh).notifications = [] := by
  simp [StoreManager.construct, StoreManager.hydrate, h1, h2, h3, jsSetOf]

/-- C1 witness: the amended no-op hydration at a concrete configuration. -/
theorem C1_noop_hydration_witness :
    ((StoreManager.construct "main" (fun _ => (none : Option Nat))
      (some { immediateKeys := none, onCloseKeys := some []
              autoCleanup := some false })).hydrate okBehavior).ops = []
    ∧ ((StoreManager.construct "main" (fun _ => (none : Option Nat))
      (some { immediateKeys := none, onCloseKeys := some []
              autoCleanup := some false })).hydrate okBehavior).result
        = .ok (StoreManager.construct "main" (fun _ => none)
            (some { immediateKeys := none, onCloseKeys := some []
                    autoCleanup := some false }))
    ∧ ((StoreManager.construct "main" (fun _ => (none : Option Nat))
      (some { immediateKeys := none, onCloseKeys := some []
              autoCleanup := some false })).hydrate
        okBehavior).notifications = [] :=
  C1_noop_hydration "main" (fun _ => none)
    { immediateKeys := none, onCloseKeys := some []
      autoCleanup := some false } okBehavior rfl rfl rfl

/-- C2 counterexample: with one persisted key and an adapter whose load
rejects, `hydrate()` rejects (the load is not wrapped in the
orphan-cleanup's try/catch), contradicting "hydrate() still completes
successfully". -/
theorem C2_counterexample :
    ((StoreManager.construct "main" (fun _ => some 0)
      (some { immediateKeys := some ["a"] })).hydrate
        failLoadBehavior).result = .error 7 := by
  rfl

/-- C2 (amended): an orphan-cleanup failure is caught — whenever the load
succeeds (in particular when the key listing or a deletion rejected),
`hydrate()` completes successfully and every key absent from the loaded
record keeps its construction-time value; but when the load itself
rejects (with persisted keys present), `hydrate()` rejects with that
error. -/
theorem C2_hydrate_io_failures {α ε : Type} (m : StoreManager α)
    (beh : AdapterBehavior α ε) :
    (∀ persisted,
      beh.loadResult (jsSetOf (m.immediateKeys ++ m.onCloseKeys))
          = .ok persisted →
      ∃ m2, (m.hydrate beh).result = .ok m2
        ∧ ∀ k, persisted.lookup k = none → m2.state k = m.state k)
    ∧ (∀ e,
        beh.loadResult (jsSetOf (m.immediateKeys ++ m.onCloseKeys))
            = .error e →
        (jsSetOf (m.immediateKeys ++ m.onCloseKeys)).isEmpty = false →
        (m.hydrate beh).result = .error e) := by
  constructor
  · intro persisted hload
    by_cases hE : (jsSetOf (m.immediateKeys ++ m.onCloseKeys)).isEmpty = true
    · exact ⟨m, by simp [StoreManager.hydrate, hE], fun k _ => rfl⟩
    · refine ⟨{ m with state := mergeLoaded m.state persisted }, ?_, ?_⟩
      · simp [StoreManager.hydrate, hE, hload]
      · intro k hk
        simp [mergeLoaded, hk]
  · intro e herr hne
    simp [StoreManager.hydrate, herr, hne]

/-- C2 witness: the amended behavior at concrete configurations — a
failing key listing still hydrates successfully with defaults kept for
unloaded keys, and a failing load rejects with its error. -/
theorem C2_hydrate_io_failures_witness :
    (∃ m2, ((StoreManager.construct "main" (fun _ => some 0)
        (some { immediateKeys := some ["a"] })).hydrate
          failCleanupBehavior).result = .ok m2
      ∧ ∀ k, ([("a", 5)] : List (String × Nat)).lookup k = none →
          m2.state k = (StoreManager.construct "main" (fun _ => some 0)
            (some { immediateKeys := some ["a"] })).state k)
    ∧ ((StoreManager.construct "main" (fun _ => some 0)
        (some { immediateKeys := some ["a"] })).hydrate
          failLoadBehavior).result = .error 7 :=
  ⟨(C2_hydrate_io_failures _ failCleanupBehavior).1 [("a", 5)] rfl,
   (C2_hydrate_io_failures _ failLoadBehavior).2 7 rfl rfl⟩

/-- C3: the registry's `notify` runs the listeners with an unguarded
`forEach`, so at the concrete registry holding listeners `1` then `2` for
key `k`, listener `1` throwing stops the iteration: only `[1]` is
invoked, the exception propagates, and listener `2` is never called —
contradicting per-listener isolation. -/
theorem C3_throwing_listener_blocks_rest :
    notifyRun (fun c => if c = 1 then Except.error 0 else Except.ok ())
      (notifyTargets
        (addListener (addListener (Registry.empty Nat) "k" 1) "k" 2) "k")
      = ([1], some 0)
    ∧ (2 : Nat) ∉
      (notifyRun (fun c => if c = 1 then Except.error 0 else Except.ok ())
        (notifyTargets
          (addListener (addListener (Registry.empty Nat) "k" 1) "k" 2)
          "k")).1 := by
  constructor <;> decide

/-- C4: an incoming update envelope from this window, or targeted at a
list excluding this window, is discarded (state, listeners and the
durable store untouched); any other envelope overwrites `state[key]`,
notifies the key's listeners with the new value, and saves the key iff
the receiving window classifies it as immediate. -/
theorem C4_incoming_update {α : Type} (m : StoreManager α)
    (env : UpdateEnvelope α) :
    (env.sourceWindow = m.windowLabel →
      m.handleIncomingUpdate env = (m, [], []))
    ∧ (∀ ws, env.targetWindows = .list ws → m.windowLabel ∉ ws →
        m.handleIncomingUpdate env = (m, [], []))
    ∧ (env.sourceWindow ≠ m.windowLabel →
        (env.targetWindows = .all
          ∨ ∃ ws, env.targetWindows = .list ws ∧ m.windowLabel ∈ ws) →
        (m.handleIncomingUpdate env).1.state
            = (fun k => if k = env.key then some env.value else m.state k)
        ∧ (m.handleIncomingUpdate env).2.1 = [(env.key, env.value)]
        ∧ (StoreOp.save env.key (some env.value)
              ∈ (m.handleIncomingUpdate env).2.2
            ↔ env.key ∈ m.immediateKeys)) := by
  refine ⟨?_, ?_, ?_⟩
  · intro hsrc
    simp [StoreManager.handleIncomingUpdate, hsrc]
  · intro ws htw hmem
    by_cases hsrc : env.sourceWindow = m.windowLabel
    · simp [StoreManager.handleIncomingUpdate, hsrc]
    · simp [StoreManager.handleIncomingUpdate, hsrc, htw, hmem]
  · intro hsrc htw
    have happ :
        m.handleIncomingUpdate env = m.applyIncoming env := by
      rcases htw with h | ⟨ws, hws, hmem⟩
      · simp [StoreManager.handleIncomingUpdate, hsrc, h]
      · simp [StoreManager.handleIncomingUpdate, hsrc, hws, hmem]
    rw [happ]
    refine ⟨rfl, rfl, ?_⟩
    by_cases hk : env.key ∈ m.immediateKeys
    · simp [StoreManager.applyIncoming, hk]
    · simp [StoreManager.applyIncoming, hk]

/-- C4 witness: the three branches at concrete envelopes delivered to
`sampleManager` (window `main`, immediate key `a`): a self-echo is
dropped, an envelope targeted at `["other"]` is dropped, and an accepted
envelope for the immediate key `a` updates state, notifies once and saves
the key. -/
theorem C4_incoming_update_witness :
    sampleManager.handleIncomingUpdate
      { key := "a", value := 1, sourceWindow := "main"
        targetWindows := .all } = (sampleManager, [], [])
    ∧ sampleManager.handleIncomingUpdate
      { key := "a", value := 1, sourceWindow := "side"
        targetWindows := .list ["other"] } = (sampleManager, [], [])
    ∧ (sampleManager.handleIncomingUpdate
        { key := "a", value := 1, sourceWindow := "side"
          targetWindows := .all }).1.state
        = (fun k => if k = "a" then some 1 else sampleManager.state k)
    ∧ (sampleManager.handleIncomingUpdate
        { key := "a", value := 1, sourceWindow := "side"
          targetWindows := .all }).2.1 = [("a", 1)]
    ∧ StoreOp.save "a" (some 1) ∈
        (sampleManager.handleIncomingUpdate
          { key := "a", value := 1, sourceWindow := "side"
            targetWindows := .all }).2.2 :=
  ⟨(C4_incoming_update sampleManager _).1 rfl,
   (C4_incoming_update sampleManager _).2.1 ["other"] rfl (by decide),
   ((C4_incoming_update sampleManager
      { key := "a", value := 1, sourceWindow := "side"
        targetWindows := .all }).2.2 (by decide) (Or.inl rfl)).1,
   ((C4_incoming_update sampleManager
      { key := "a", value := 1, sourceWindow := "side"
        targetWindows := .all }).2.2 (by decide) (Or.inl rfl)).2.1,
   (((C4_incoming_update sampleManager
      { key := "a", value := 1, sourceWindow := "side"
        targetWindows := .all }).2.2 (by decide) (Or.inl rfl)).2.2).mpr
     (by decide)⟩

/-- C5: `set` saves the key to the durable store iff the key is
immediate; a key outside `immediateKeys` (in particular an `onClose` key,
the sets being disjoint by the data model) is never written during `set`;
the close-time flush writes every `onCloseKeys` key's current value; and
a key in neither set is written by neither `set` nor the flush. -/
theorem C5_persistence_classification {α ε : Type} (m : StoreManager α)
    (key : String) (value : α) (tw : TargetWindows)
    (beh : AdapterBehavior α ε) (disk : String → Option α) :
    (StoreOp.save key (some value) ∈ (m.set key value tw beh disk).ops
      ↔ key ∈ m.immediateKeys)
    ∧ (key ∉ m.immediateKeys → (m.set key value tw beh disk).ops = [])
    ∧ (key ∈ m.onCloseKeys →
        StoreOp.save key (m.state key) ∈ m.saveOnCloseKeys)
    ∧ (key ∉ m.immediateKeys → key ∉ m.onCloseKeys →
        (m.set key value tw beh disk).ops = []
        ∧ ∀ v, StoreOp.save key v ∉ m.saveOnCloseKeys) := by
  have hops : (m.set key value tw beh disk).ops
      = if key ∈ m.immediateKeys then [StoreOp.save key (some value)]
        else [] := by
    by_cases hk : key ∈ m.immediateKeys
    · cases hsv : beh.saveResult key (some value) with
      | ok u => simp [StoreManager.set, hk, hsv]
      | error e => simp [StoreManager.set, hk, hsv]
    · simp [StoreManager.set, hk]
  refine ⟨?_, ?_, ?_, ?_⟩
  · rw [hops]
    by_cases hk : key ∈ m.immediateKeys
    · simp [hk]
    · simp [hk]
  · intro hk
    rw [hops]
    simp [hk]
  · intro hk
    exact List.mem_map.mpr ⟨key, hk, rfl⟩
  · intro hk hc
    refine ⟨by rw [hops]; simp [hk], ?_⟩
    intro v hv
    rcases List.mem_map.mp hv with ⟨k2, hk2, heq⟩
    exact hc (by cases heq; exact hk2)

/-- C5 witness: on `sampleManager` (`immediateKeys = {a}`,
`onCloseKeys = {b}`), `set` of `a` saves it and `set` of `b` or `c`
saves nothing; the close flush writes `b`'s current value and never
writes `c`. -/
theorem C5_persistence_classification_witness :
    StoreOp.save "a" (some 1) ∈
      (sampleManager.set "a" 1 .all okBehavior (fun _ => none)).ops
    ∧ (sampleManager.set "b" 2 .all okBehavior (fun _ => none)).ops = []
    ∧ StoreOp.save "b" (sampleManager.state "b") ∈
        sampleManager.saveOnCloseKeys
    ∧ (sampleManager.set "c" 3 .all okBehavior (fun _ => none)).ops = []
    ∧ ∀ v, StoreOp.save "c" v ∉ sampleManager.saveOnCloseKeys :=
  ⟨(C5_persistence_classification sampleManager "a" 1 .all okBehavior
      (fun _ => none)).1.mpr (by decide),
   (C5_persistence_classification sampleManager "b" 2 .all okBehavior
      (fun _ => none)).2.1 (by decide),
   (C5_persistence_classification sampleManager "b" 2 .all okBehavior
      (fun _ => none)).2.2.1 (by decide),
   ((C5_persistence_classification sampleManager "c" 3 .all okBehavior
      (fun _ => none)).2.2.2 (by decide) (by decide)).1,
   ((C5_persistence_classification sampleManager "c" 3 .all okBehavior
      (fun _ => none)).2.2.2 (by decide) (by decide)).2⟩

/-- C6: when a matching sync response (same key, addressed to this
window) is delivered before the timeout, `requestSync` cancels the
timeout, unregisters its listener, overwrites `state[key]`, notifies the
key's listeners exactly once with the received value, and resolves with
it — so a subsequent `get(key)` returns it. -/
theorem C6_sync_success {α : Type} (m : StoreManager α) (key : String)
    (delivered : List (SyncResponse α)) (r : SyncResponse α)
    (h : delivered.find? (matchesSync key m.windowLabel) = some r) :
    (m.requestSync key delivered).canceledTimeout = true
    ∧ (m.requestSync key delivered).unregisteredListener = true
    ∧ (m.requestSync key delivered).notifications = [(key, r.value)]
    ∧ (m.requestSync key delivered).resolved = some r.value
    ∧ (m.requestSync key delivered).mgr.get key = some r.value := by
  refine ⟨?_, ?_, ?_, ?_, ?_⟩ <;>
    simp [StoreManager.requestSync, h, StoreManager.get,
      StoreManager.withState]

/-- C6 witness: window `main` receives a matching response carrying `42`
(after an unrelated response addressed to another window is skipped). -/
theorem C6_sync_success_witness :
    (sampleManager.requestSync "k"
      [{ key := "k", value := 41, sourceWindow := "side"
         targetWindow := "other" },
       { key := "k", value := 42, sourceWindow := "side"
         targetWindow := "main" }]).canceledTimeout = true
    ∧ (sampleManager.requestSync "k"
      [{ key := "k", value := 41, sourceWindow := "side"
         targetWindow := "other" },
       { key := "k", value := 42, sourceWindow := "side"
         targetWindow := "main" }]).unregisteredListener = true
    ∧ (sampleManager.requestSync "k"
      [{ key := "k", value := 41, sourceWindow := "side"
         targetWindow := "other" },
       { key := "k", value := 42, sourceWindow := "side"
         targetWindow := "main" }]).notifications = [("k", 42)]
    ∧ (sampleManager.requestSync "k"
      [{ key := "k", value := 41, sourceWindow := "side"
         targetWindow := "other" },
       { key := "k", value := 42, sourceWindow := "side"
         targetWindow := "main" }]).resolved = some 42
    ∧ (sampleManager.requestSync "k"
      [{ key := "k", value := 41, sourceWindow := "side"
         targetWindow := "other" },
       { key := "k", value := 42, sourceWindow := "side"
         targetWindow := "main" }]).mgr.get "k" = some 42 :=
  C6_sync_success sampleManager "k"
    [{ key := "k", value := 41, sourceWindow := "side"
       targetWindow := "other" },
     { key := "k", value := 42, sourceWindow := "side"
       targetWindow := "main" }]
    { key := "k", value := 42, sourceWindow := "side"
      targetWindow := "main" } (by decide)

/-- C7: when no matching sync response is delivered before the 1-second
timeout, `requestSync` unregisters its listener and resolves (rather than
rejecting or staying pending) with the value currently in local state,
leaving the manager and its listeners untouched. -/
theorem C7_sync_timeout {α : Type} (m : StoreManager α) (key : String)
    (delivered : List (SyncResponse α))
    (h : delivered.find? (matchesSync key m.windowLabel) = none) :
    (m.requestSync key delivered).resolved = m.state key
    ∧ (m.requestSync key delivered).mgr = m
    ∧ (m.requestSync key delivered).notifications = []
    ∧ (m.requestSync key delivered).unregisteredListener = true := by
  refine ⟨?_, ?_, ?_, ?_⟩ <;> simp [StoreManager.requestSync, h]

/-- C7 witness: with no responses at all (and with only a mismatching
one), `requestSync` falls back to the local value `0` and changes
nothing. -/
theorem C7_sync_timeout_witness :
    (sampleManager.requestSync "k"
      [{ key := "j", value := 41, sourceWindow := "side"
         targetWindow := "main" }]).resolved = sampleManager.state "k"
    ∧ (sampleManager.requestSync "k"
      [{ key := "j", value := 41, sourceWindow := "side"
         targetWindow := "main" }]).mgr = sampleManager
    ∧ (sampleManager.requestSync "k"
      [{ key := "j", value := 41, sourceWindow := "side"
         targetWindow := "main" }]).notifications = []
    ∧ (sampleManager.requestSync "k"
      [{ key := "j", value := 41, sourceWindow := "side"
         targetWindow := "main" }]).unregisteredListener = true :=
  C7_sync_timeout sampleManager "k"
    [{ key := "j", value := 41, sourceWindow := "side"
       targetWindow := "main" }] (by decide)

/-- C8: `defineStore` is idempotent and at-most-once per window — after
any first call, the singleton is assigned, so a second call (with any
configuration) returns at once: the singleton is unchanged, no
durable-store operation and no notification happens, and the call
resolves. -/
theorem C8_defineStore_idempotent {α ε : Type}
    (g : Option (StoreManager α)) (label1 label2 : String)
    (init1 init2 : String → Option α) (opts1 opts2 : Option StoreOptions)
    (beh1 beh2 : AdapterBehavior α ε) :
    defineStore (defineStore g label1 init1 opts1 beh1).global
        label2 init2 opts2 beh2
      = { global := (defineStore g label1 init1 opts1 beh1).global
          ops := [], notifications := [], result := .ok () } := by
  cases g with
  | some m => rfl
  | none =>
    show defineStore (defineStore none label1 init1 opts1 beh1).global
        label2 init2 opts2 beh2 = _
    cases h : ((StoreManager.construct label1 init1 opts1).hydrate
        beh1).result with
    | error e => simp [defineStore, h]
    | ok m2 => simp [defineStore, h]

/-- C9: when an immediate key's save rejects inside `set`, the returned
promise rejects with that error, but the in-memory state already holds
the new value and the listeners were already notified with it — no
rollback — while the durable store still holds its old contents. -/
theorem C9_failed_immediate_save {α ε : Type} (m : StoreManager α)
    (key : String) (value : α) (tw : TargetWindows)
    (beh : AdapterBehavior α ε) (disk : String → Option α) (e : ε)
    (h1 : key ∈ m.immediateKeys)
    (h2 : beh.saveResult key (some value) = .error e) :
    (m.set key value tw beh disk).result = .error e
    ∧ (m.set key value tw beh disk).mgr.get key = some value
    ∧ (m.set key value tw beh disk).notifications = [(key, value)]
    ∧ (m.set key value tw beh disk).disk = disk := by
  refine ⟨?_, ?_, ?_, ?_⟩ <;>
    simp [StoreManager.set, h1, h2, StoreManager.get,
      StoreManager.withState]

/-- C9 witness: `set("a", 1)` on `sampleManager` with a rejecting save:
the promise rejects with error 9, `get("a")` already returns `1`, the
listeners were notified with `1`, and the durable store still holds the
old `0` for `a`. -/
theorem C9_failed_immediate_save_witness :
    (sampleManager.set "a" 1 .all failSaveBehavior
        (fun _ => some 0)).result = .error 9
    ∧ (sampleManager.set "a" 1 .all failSaveBehavior
        (fun _ => some 0)).mgr.get "a" = some 1
    ∧ (sampleManager.set "a" 1 .all failSaveBehavior
        (fun _ => some 0)).notifications = [("a", 1)]
    ∧ (sampleManager.set "a" 1 .all failSaveBehavior
        (fun _ => some 0)).disk = (fun _ => some 0) :=
  C9_failed_immediate_save sampleManager "a" 1 .all failSaveBehavior
    (fun _ => some 0) 9 (by decide) rfl

/-- C10: the unsubscribe function returned by `subscribe` round-trips the
registry — after invoking it the callback is no longer among `notify`'s
targets for the key, the other listeners for the key are exactly as
before, invoking it a second time changes nothing, and removing a
callback that was never registered leaves the registry unchanged. -/
theorem C10_unsubscribe_roundtrip {ι : Type} [DecidableEq ι]
    (r : Registry ι) (key : String) (c : ι) :
    c ∉ notifyTargets (removeListener (addListener r key c) key c) key
    ∧ (∀ c2, c2 ≠ c →
        (c2 ∈ notifyTargets (removeListener (addListener r key c) key c)
            key
          ↔ c2 ∈ notifyTargets r key))
    ∧ removeListener (removeListener (addListener r key c) key c) key c
        = removeListener (addListener r key c) key c
    ∧ (c ∉ notifyTargets r key → removeListener r key c = r) := by
  refine ⟨?_, ?_, ?_, ?_⟩
  · simp [notifyTargets, removeListener, addListener]
  · intro c2 hne
    by_cases hc : c ∈ r key
    · simp [notifyTargets, removeListener, addListener, hc,
        List.mem_filter, hne]
    · simp [notifyTargets, removeListener, addListener, hc,
        List.mem_filter, hne]
  · funext k
    by_cases hk : k = key
    · subst hk
      simp [removeListener, addListener, List.filter_filter]
    · simp [removeListener, hk]
  · intro hc
    funext k
    by_cases hk : k = key
    · subst hk
      simp only [removeListener, if_pos rfl]
      exact List.filter_eq_self.mpr fun a ha => by
        simp only [notifyTargets] at hc
        have hne : a ≠ c := fun heq => hc (heq ▸ ha)
        simpa using hne
    · simp [removeListener, hk]

/-- C10 witness: on the registry holding only listener `5` for `k`,
subscribing `1` and then unsubscribing it leaves `5` registered and `1`
absent, and removing the never-registered `1` directly is a no-op. -/
theorem C10_unsubscribe_roundtrip_witness :
    (1 : Nat) ∉ notifyTargets
      (removeListener (addListener (fun _ => [5] : Registry Nat) "k" 1)
        "k" 1) "k"
    ∧ ((5 : Nat) ∈ notifyTargets
        (removeListener (addListener (fun _ => [5] : Registry Nat) "k" 1)
          "k" 1) "k")
    ∧ removeListener (fun _ => [5] : Registry Nat) "k" 1
        = (fun _ => [5] : Registry Nat) :=
  ⟨(C10_unsubscribe_roundtrip (fun _ => [5] : Registry Nat) "k" 1).1,
   ((C10_unsubscribe_roundtrip (fun _ => [5] : Registry Nat) "k" 1).2.1
      5 (by decide)).mpr (by decide),
   (C10_unsubscribe_roundtrip (fun _ => [5] : Registry Nat) "k" 1).2.2.2
     (by decide)⟩

end MWStore
